import Mathlib

/-!
Verification of the hacollector LG RS-485 protocol engine.

Shallow embedding of the frame codec, the buffer-hunting read, the
error-counter logic, the buffered exact-length read, and the device
registry, translated from the Python sources
(hacollector/classes/lgac485.py, hacollector/classes/comm.py,
classes/aircon.py, config.py).  Byte strings are modelled as List Nat
whose entries are below 256 where that matters; Python floats on these
code paths only ever hold dyadic rationals, so temperatures are
modelled exactly as rationals.
-/

/-! ### Payload string constants (consts.py) -/

def PAYLOAD_ON : String := "on"
def PAYLOAD_OFF : String := "off"
def PAYLOAD_LOW : String := "low"
def PAYLOAD_MEDIUM : String := "medium"
def PAYLOAD_HIGH : String := "high"
def PAYLOAD_SILENT : String := "silent"
def PAYLOAD_HEAT : String := "heat"
def PAYLOAD_FAN_ONLY : String := "fan_only"
def PAYLOAD_COOL : String := "cool"
def PAYLOAD_DRY : String := "dry"
def PAYLOAD_AUTO : String := "auto"
def PAYLOAD_SWING : String := "swing"
def PAYLOAD_FIXED : String := "fixed"
def PAYLOAD_POWER : String := "power"
def PAYLOAD_STATUS : String := "status"
def PAYLOAD_SCAN : String := "scan"
def PAYLOAD_LOCKON : String := "lockon"
def PAYLOAD_LOCKOFF : String := "lockoff"

/-! ### config.py globals used by the codec -/

-- config.py line 38: TEMPERATURE_ADJUST = 0.5
def TEMPERATURE_ADJUST : ℚ := 1/2

/-! ### LGACPacket symbol tables (lgac485.py lines 34-59) -/

def LGAC_ACTION (code : Nat) : Option String :=
  match code with
  | 0x00 => some PAYLOAD_SCAN
  | 0x01 => some PAYLOAD_STATUS
  | 0x02 => some PAYLOAD_OFF
  | 0x03 => some PAYLOAD_ON
  | 0x06 => some PAYLOAD_LOCKON
  | 0x07 => some PAYLOAD_LOCKOFF
  | _ => none

def LGAC_MODE (code : Nat) : Option String :=
  match code with
  | 0 => some PAYLOAD_COOL
  | 1 => some PAYLOAD_DRY
  | 2 => some PAYLOAD_FAN_ONLY
  | 3 => some PAYLOAD_AUTO
  | 4 => some PAYLOAD_HEAT
  | _ => none

def LGAC_FAN_SPEED (code : Nat) : Option String :=
  match code with
  | 1 => some PAYLOAD_LOW
  | 2 => some PAYLOAD_MEDIUM
  | 3 => some PAYLOAD_HIGH
  | 4 => some PAYLOAD_AUTO
  | 5 => some PAYLOAD_SILENT
  | 6 => some PAYLOAD_POWER
  | _ => none

/-- LGAC_ACTION_REV = the value-to-key inverse of LGAC_ACTION (values are distinct). -/
def LGAC_ACTION_REV (s : String) : Option Nat :=
  if s = PAYLOAD_SCAN then some 0x00
  else if s = PAYLOAD_STATUS then some 0x01
  else if s = PAYLOAD_OFF then some 0x02
  else if s = PAYLOAD_ON then some 0x03
  else if s = PAYLOAD_LOCKON then some 0x06
  else if s = PAYLOAD_LOCKOFF then some 0x07
  else none

/-- LGAC_MODE_REV = the value-to-key inverse of LGAC_MODE. -/
def LGAC_MODE_REV (s : String) : Option Nat :=
  if s = PAYLOAD_COOL then some 0
  else if s = PAYLOAD_DRY then some 1
  else if s = PAYLOAD_FAN_ONLY then some 2
  else if s = PAYLOAD_AUTO then some 3
  else if s = PAYLOAD_HEAT then some 4
  else none

/-- LGAC_FAN_SPEED_REV = the value-to-key inverse of LGAC_FAN_SPEED. -/
def LGAC_FAN_SPEED_REV (s : String) : Option Nat :=
  if s = PAYLOAD_LOW then some 1
  else if s = PAYLOAD_MEDIUM then some 2
  else if s = PAYLOAD_HIGH then some 3
  else if s = PAYLOAD_AUTO then some 4
  else if s = PAYLOAD_SILENT then some 5
  else if s = PAYLOAD_POWER then some 6
  else none

/-! ### LGACPacket state (lgac485.py, `LGACPacket.__init__`) -/

structure LGACPacket where
  fill_return_head : Nat
  action : Nat
  fill_unknown1 : Nat
  fill_unknown2 : Nat
  groupandid : Nat
  fill_unknown3 : Nat
  current_mode : Nat
  set_temp : Nat
  current_temp : ℚ
  pipe1_temp : ℚ
  pipe2_temp : ℚ
  fill_outer_sensor : Nat
  fill_unknown4 : Nat
  fill_model : Nat
  fill_fixedvalue : Nat
  checksum : Nat
  str_action : String
  str_opmode : String
  str_fanmove : String
  str_fanmode : String
deriving DecidableEq

/-- The field values set by `LGACPacket.__init__` when rawdata is None. -/
def LGACPacket.init : LGACPacket :=
  { fill_return_head := 0, action := 0, fill_unknown1 := 0, fill_unknown2 := 0
    groupandid := 0, fill_unknown3 := 0, current_mode := 0, set_temp := 0
    current_temp := 0, pipe1_temp := 0, pipe2_temp := 0, fill_outer_sensor := 0
    fill_unknown4 := 0, fill_model := 0, fill_fixedvalue := 0, checksum := 0
    str_action := "", str_opmode := "", str_fanmove := "", str_fanmode := "" }

/-! ### Table lookup helpers (lgac485.py lines 127-149) -/

def get_lgac_action_data (id : String) : Nat := (LGAC_ACTION_REV id).getD 0

def parse_lgac_action (inbyte : Nat) : String := (LGAC_ACTION inbyte).getD ""

def get_lgac_mode_data (id : String) : Nat := (LGAC_MODE_REV id).getD 0

def parse_lgac_mode (inbyte : Nat) : String := (LGAC_MODE inbyte).getD ""

def get_lgac_fanspeed_data (id : String) : Nat := (LGAC_FAN_SPEED_REV id).getD 0

def parse_lgac_fanspeed (inbyte : Nat) : String := (LGAC_FAN_SPEED inbyte).getD ""

/-! ### Temperature decoding (lgac485.py lines 160-162) -/

/-- Python round(q, 2).  On this code path q is always a multiple of 1/4, so
q * 100 is an integer and the rounding (banker or half-up alike) is exact. -/
def pyround2 (q : ℚ) : ℚ := ((round (q * 100) : ℤ) : ℚ) / 100

/-- calc_temp: round(54.0 - num / 4, 2). -/
def calc_temp (num : Nat) : ℚ := pyround2 (54 - (num : ℚ) / 4)

/-! ### Decode: get_detail_mode and set_packet_data (lgac485.py 89-125, 164-184) -/

/-- get_detail_mode: derive the symbolic fields from action and current_mode. -/
def get_detail_mode (p : LGACPacket) : LGACPacket :=
  let sa := parse_lgac_action p.action
  let sa := if sa = "" then PAYLOAD_STATUS else sa
  let so := parse_lgac_mode (p.current_mode &&& 0x07)
  let sm := if p.current_mode &&& 0x08 ≠ 0 then PAYLOAD_SWING else PAYLOAD_FIXED
  let sf := parse_lgac_fanspeed ((p.current_mode >>> 4) &&& 0x07)
  let sf := if sf = "" then PAYLOAD_LOW else sf
  { p with str_action := sa, str_opmode := so, str_fanmove := sm, str_fanmode := sf }

/-- set_packet_data: returns the Python boolean result together with the
(possibly unchanged) packet, modelling in-place mutation by state passing.
A wrong-length input returns false before any field is assigned. -/
def set_packet_data (p : LGACPacket) (rawdata : List Nat) : Bool × LGACPacket :=
  if rawdata.length ≠ 16 then (false, p)
  else
    let q : LGACPacket :=
      { fill_return_head := rawdata.getD 0 0
        action := rawdata.getD 1 0
        fill_unknown1 := rawdata.getD 2 0
        fill_unknown2 := rawdata.getD 3 0
        groupandid := rawdata.getD 4 0
        fill_unknown3 := rawdata.getD 5 0
        current_mode := rawdata.getD 6 0
        set_temp := (rawdata.getD 7 0 &&& 0x0f) + 0x0f
        current_temp := TEMPERATURE_ADJUST + calc_temp (rawdata.getD 8 0)
        pipe1_temp := calc_temp (rawdata.getD 9 0)
        pipe2_temp := calc_temp (rawdata.getD 10 0)
        fill_outer_sensor := rawdata.getD 11 0
        fill_unknown4 := rawdata.getD 12 0
        fill_model := rawdata.getD 13 0
        fill_fixedvalue := rawdata.getD 14 0
        checksum := rawdata.getD 15 0
        str_action := p.str_action, str_opmode := p.str_opmode
        str_fanmove := p.str_fanmove, str_fanmode := p.str_fanmode }
    (true, get_detail_mode q)

/-! ### Encode: set_detail_mode, make_new_packet, make_send_packet
(lgac485.py 151-158, 186-197, 207-223) -/

/-- set_detail_mode: derive action and current_mode from the symbolic fields. -/
def set_detail_mode (p : LGACPacket) : LGACPacket :=
  let action := get_lgac_action_data p.str_action
  let opmode := get_lgac_mode_data p.str_opmode
  let opmode := if p.str_fanmove = PAYLOAD_SWING then opmode ||| 0x08 else opmode
  let mode := opmode
  let fan_speed := get_lgac_fanspeed_data p.str_fanmode
  { p with action := action, current_mode := mode ||| ((fan_speed <<< 4) &&& 0xf0) }

/-- make_new_packet.  The target temperature is a Python int. -/
def make_new_packet (p : LGACPacket) (group id : Nat)
    (action operation fanmove fanspeed : String) (temp : Int) : LGACPacket :=
  set_detail_mode
    { p with groupandid := (group <<< 4) + id
             str_action := action, str_opmode := operation
             str_fanmove := fanmove, str_fanmode := fanspeed
             set_temp := if 18 < temp ∧ temp ≤ 30 then (temp - 0x0f).toNat else 10 }

/-- make_send_packet: 3-byte magic, four packed byte fields, checksum byte.
struct.pack would reject fields outside 0..255; the theorems carry those
bounds as hypotheses where the claim needs them. -/
def make_send_packet (p : LGACPacket) : List Nat :=
  let packet := [0x80, 0x00, 0xa3, p.groupandid, p.action, p.current_mode, p.set_temp]
  packet ++ [(packet.sum &&& 0xff) ^^^ 0x55]

/-! ### Checksum check (lgac485.py 292-298) -/

/-- is_checksum_ok.  On an empty input Python raises IndexError at body[-1];
the callers only ever pass 16-byte windows, and the model returns false there. -/
def is_checksum_ok (body : List Nat) : Bool :=
  match body.getLast? with
  | none => false
  | some last => last == ((body.dropLast.sum &&& 0xff) ^^^ 0x55)

/-! ### Frame-hunting read (lgac485.py 354-405, `async_read_packet`)

The inner packet-hunting loop of `async_read_packet` operates on the
accumulated receive buffer alone; reads only append fresh bytes before it
runs again.  `huntPacket` is that loop: it returns the decoded 16-byte
frame (if one is found) together with the buffer contents left behind.
A result of `none` means the loop broke out to wait for more data, with
the buffer as returned (cleared when no 0x10 byte was present). -/

def huntPacket (buf : List Nat) : Option (List Nat) × List Nat :=
  if h16 : 16 ∈ buf then
    -- header_idx = self._recv_buffer.index(0x10), then discard the garbage before it
    let buf2 := buf.drop (buf.indexOf 16)
    if buf2.length < 16 then (none, buf2)
    else if is_checksum_ok (buf2.take 16) then (some (buf2.take 16), buf2.drop 16)
    else huntPacket (buf2.drop 1)
  else (none, [])
termination_by buf.length
decreasing_by
  have hidx : buf.indexOf 16 < buf.length := List.indexOf_lt_length.mpr h16
  simp only [List.length_drop]
  omega

/-! ### Buffered exact-length read (comm.py 139-201, `async_get_data`)

The socket is modelled as a list of read events: each `await reader.read`
either yields a chunk (the empty chunk is the peer-close signal) or times
out.  Exhausting the event list models the overall timeout check at the
top of the loop.  `reconnected` records whether the proactive
close-and-reconnect branch at the end of the function ran. -/

inductive ReadEvent where
  | chunk (data : List Nat)
  | timedOut
deriving DecidableEq

structure CommState where
  read_buffer : List Nat
  connection_reset : Bool
  closing : Bool
  reconnected : Bool
deriving DecidableEq

/-- The code after the accumulation loop of async_get_data: short buffer
returns empty bytes; otherwise split off the first `length` bytes and run
the dead-in-practice reconnect branch. -/
def async_get_data_post (length : Nat) (st : CommState) : List Nat × CommState :=
  if st.read_buffer.length < length then ([], st)
  else
    let ret := st.read_buffer.take length
    let st1 := { st with read_buffer := st.read_buffer.drop length }
    if ret = [] ∧ st1.connection_reset ∧ ¬ st1.closing then
      (ret, { st1 with read_buffer := [], connection_reset := false, reconnected := true })
    else (ret, st1)

/-- async_get_data: accumulate reads until `length` bytes are buffered.
Timeout returns empty bytes at once; a peer close sets connection_reset
and breaks to the post-loop code. -/
def async_get_data (length : Nat) (events : List ReadEvent) (st : CommState) :
    List Nat × CommState :=
  if length ≤ st.read_buffer.length then async_get_data_post length st
  else
    match events with
    | [] => ([], st)                      -- overall timeout elapsed
    | ReadEvent.timedOut :: _ => ([], st) -- asyncio.TimeoutError during the read
    | ReadEvent.chunk d :: rest =>
        if d = [] then                    -- peer closed
          async_get_data_post length { st with connection_reset := true }
        else
          async_get_data length rest { st with read_buffer := st.read_buffer ++ d }

/-! ### Consecutive-error accounting (lgac485.py 407-472,
`async_send_and_get_result`)

Per transaction the counter and the force-close are driven only by the
outcome and the count_error flag; this is that transition. -/

def MAX_READ_ERROR_RETRY : Nat := 3

inductive TxOutcome where
  | success   -- a checksum-valid frame was decoded
  | noFrame   -- async_read_packet returned no frame within its timeout
  | writeFail -- async_write_one_chunk returned false
deriving DecidableEq

structure ErrorCounterEffect where
  read_error_count : Nat
  transport_closed : Bool
deriving DecidableEq

/-- The effect of one call of async_send_and_get_result on read_error_count,
and whether handle_max_read_error (force-close of the transport) ran. -/
def async_send_and_get_result_errors (count_error : Bool) (outcome : TxOutcome)
    (read_error_count : Nat) : ErrorCounterEffect :=
  match outcome with
  | .success => { read_error_count := 0, transport_closed := false }
  | .noFrame =>
      if count_error then
        let n := read_error_count + 1
        if n > MAX_READ_ERROR_RETRY then { read_error_count := 0, transport_closed := true }
        else { read_error_count := n, transport_closed := false }
      else { read_error_count := read_error_count, transport_closed := false }
  | .writeFail =>
      if count_error then { read_error_count := read_error_count, transport_closed := true }
      else { read_error_count := read_error_count, transport_closed := false }

/-! ### Device registry (lgac485.py 268-290, classes/aircon.py)

`Aircon.__init__` assigns no `id` attribute; prepare_enabled assigns it
from `int(r_id, 16)`, and when that raises ValueError nothing is assigned
at all (modelled as `none`), despite the log message announcing a default
of 0.  scan.tick is reset to 0 by set_initial_state. -/

structure Aircon where
  room_name : String
  id : Option Int
  scan_tick : ℚ
deriving DecidableEq

/-- One hex digit, as accepted by Python int(-, 16). -/
def hexDigit? (c : Char) : Option Nat :=
  if '0' ≤ c ∧ c ≤ '9' then some (c.toNat - '0'.toNat)
  else if 'a' ≤ c ∧ c ≤ 'f' then some (c.toNat - 'a'.toNat + 10)
  else if 'A' ≤ c ∧ c ≤ 'F' then some (c.toNat - 'A'.toNat + 10)
  else none

def parseHexCore (cs : List Char) : Option Nat :=
  match cs with
  | [] => none
  | _ => cs.foldl
      (fun acc c =>
        match acc, hexDigit? c with
        | some n, some d => some (n * 16 + d)
        | _, _ => none)
      (some 0)

/-- Python int(s, 16): optional sign, optional 0x prefixing, one or more hex
digits.  (Surrounding whitespace and digit-group underscores, which Python
also accepts, are treated as invalid here; no registry key uses them.) -/
def pyIntBase16 (s : String) : Option Int :=
  let cs := s.toList
  let signed : Int × List Char :=
    match cs with
    | '-' :: rest => (-1, rest)
    | '+' :: rest => (1, rest)
    | _ => (1, cs)
  let ds : List Char :=
    match signed.2 with
    | '0' :: c :: rest => if c = 'x' ∨ c = 'X' then rest else '0' :: c :: rest
    | l => l
  (parseHexCore ds).map (fun n => signed.1 * (n : Int))

/-- prepare_enabled: one Aircon per room-map entry, in insertion order. -/
def prepare_enabled (rooms : List (String × String)) : List Aircon :=
  rooms.map (fun r =>
    { room_name := r.2
      id := pyIntBase16 r.1  -- none: int(r_id, 16) raised and id was never assigned
      scan_tick := 0 })

/-- get_aircon: first device matching the room name exactly, or matching it
after replacing spaces in the stored room name with underscores.  `none`
models the `assert False` (AssertionError) fall-through. -/
def get_aircon (aircons : List Aircon) (room_name : String) : Option Aircon :=
  aircons.find? (fun item =>
    item.room_name == room_name || item.room_name.replace " " "_" == room_name)

/-! ### Helper lemmas -/

theorem nat_and_255 (n : Nat) : n &&& 255 = n % 256 := by
  have h := Nat.and_pow_two_sub_one_eq_mod n 8
  norm_num at h
  exact h

theorem nat_xor_85_cancel {a b : Nat} (h : a ^^^ 85 = b ^^^ 85) : a = b := by
  have h2 := congrArg (· ^^^ 85) h
  simpa [Nat.xor_assoc] using h2

theorem is_checksum_ok_concat (l : List Nat) (a : Nat) :
    is_checksum_ok (l ++ [a]) = (a == ((l.sum &&& 0xff) ^^^ 0x55)) := by
  simp [is_checksum_ok]

/-- Replacing one byte of a checksum-valid sequence by a different byte value
breaks the checksum. -/
theorem checksum_flip (u v : List Nat) (b bp : Nat) (hb : b < 256) (hbp : bp < 256)
    (hne : bp ≠ b) (hok : is_checksum_ok (u ++ b :: v) = true) :
    is_checksum_ok (u ++ bp :: v) = false := by
  rcases List.eq_nil_or_concat v with rfl | ⟨w, z, rfl⟩
  · rw [show u ++ [b] = u ++ [b] from rfl, is_checksum_ok_concat] at hok
    rw [is_checksum_ok_concat]
    have hb' : b = (u.sum &&& 0xff) ^^^ 0x55 := by simpa using hok
    simp only [beq_eq_false_iff_ne, ne_eq]
    omega
  · simp only [List.concat_eq_append] at hok ⊢
    have e1 : u ++ b :: (w ++ [z]) = (u ++ b :: w) ++ [z] := by simp
    have e2 : u ++ bp :: (w ++ [z]) = (u ++ bp :: w) ++ [z] := by simp
    rw [e1, is_checksum_ok_concat] at hok
    rw [e2, is_checksum_ok_concat]
    have hz : z = (((u ++ b :: w).sum &&& 0xff) ^^^ 0x55) := by simpa using hok
    simp only [beq_eq_false_iff_ne, ne_eq]
    intro hcontra
    have hxor : ((u ++ bp :: w).sum &&& 0xff) = ((u ++ b :: w).sum &&& 0xff) :=
      nat_xor_85_cancel (by rw [← hcontra, ← hz])
    have hs1 : (u ++ bp :: w).sum = u.sum + (bp + w.sum) := by simp
    have hs2 : (u ++ b :: w).sum = u.sum + (b + w.sum) := by simp
    rw [hs1, hs2, nat_and_255, nat_and_255] at hxor
    omega

/-- The outbound packet of make_send_packet for given byte fields. -/
def sendPacketOf (g a m t : Nat) : List Nat :=
  make_send_packet
    { LGACPacket.init with groupandid := g, action := a, current_mode := m, set_temp := t }

/-- C3: every outbound packet is 8 bytes ending in the masked-sum-xor-0x55
checksum of its first 7 bytes and is accepted by is_checksum_ok; and a valid
byte sequence with any single byte replaced by a different byte value is
rejected by is_checksum_ok. -/
theorem C3_checksum_roundtrip (g a m t : Nat) ( _hg : g < 256) ( _ha : a < 256)
    ( _hm : m < 256) ( _ht : t < 256) (u v : List Nat) (b bp : Nat)
    (hb : b < 256) (hbp : bp < 256) (hne : bp ≠ b)
    (hok : is_checksum_ok (u ++ b :: v) = true) :
    (sendPacketOf g a m t).length = 8 ∧
    (sendPacketOf g a m t).getLast? =
      some ((([0x80, 0x00, 0xa3, g, a, m, t].sum &&& 0xff)) ^^^ 0x55) ∧
    is_checksum_ok (sendPacketOf g a m t) = true ∧
    is_checksum_ok (u ++ bp :: v) = false := by
  refine ⟨?_, ?_, ?_, checksum_flip u v b bp hb hbp hne hok⟩
  · simp [sendPacketOf, make_send_packet]
  · simp [sendPacketOf, make_send_packet]
  · rw [sendPacketOf, make_send_packet, is_checksum_ok_concat]
    simp

theorem C3_witness : is_checksum_ok ([] ++ (0 : Nat) :: []) = false :=
  (C3_checksum_roundtrip 1 2 3 4 (by decide) (by decide) (by decide) (by decide)
    [] [] 0x55 0 (by decide) (by decide) (by decide) (by decide)).2.2.2

/-! ### Decode-field theorems -/

theorem calc_temp_eq (n : Nat) : calc_temp n = 54 - (n : ℚ) / 4 := by
  unfold calc_temp pyround2
  have h : (54 - (n : ℚ) / 4) * 100 = ((5400 - 25 * (n : ℤ) : ℤ) : ℚ) := by
    push_cast; ring
  rw [h, round_intCast]
  push_cast; ring

/-- C4 (amended): decoded set temperature is (raw and 0x0F) + 0x0F, every
temperature byte decodes to round(54.0 - raw/4, 2) = 54 - raw/4, and the
current temperature adds the calibration offset whose config.py default
is 0.5 (not 0). -/
theorem C4_decode_fields (p : LGACPacket) (raw : List Nat) (hlen : raw.length = 16) :
    ((set_packet_data p raw).2.set_temp = (raw.getD 7 0 &&& 0x0f) + 0x0f) ∧
    ((set_packet_data p raw).2.current_temp
        = TEMPERATURE_ADJUST + (54 - (raw.getD 8 0 : ℚ) / 4)) ∧
    ((set_packet_data p raw).2.pipe1_temp = 54 - (raw.getD 9 0 : ℚ) / 4) ∧
    ((set_packet_data p raw).2.pipe2_temp = 54 - (raw.getD 10 0 : ℚ) / 4) ∧
    TEMPERATURE_ADJUST = 1 / 2 := by
  refine ⟨?_, ?_, ?_, ?_, rfl⟩ <;>
    simp [set_packet_data, hlen, get_detail_mode, calc_temp_eq]

/-- C4 as stated is false: with the default offset of config.py, decoding an
all-zero frame yields current temperature 54.5, not round(54.0 - 0/4, 2) + 0. -/
theorem C4_counterexample :
    (set_packet_data LGACPacket.init (List.replicate 16 0)).2.current_temp = 109 / 2 ∧
    ¬ ((set_packet_data LGACPacket.init (List.replicate 16 0)).2.current_temp
        = calc_temp 0 + 0) := by
  have h : (set_packet_data LGACPacket.init (List.replicate 16 0)).2.current_temp
      = 1 / 2 + (54 - ((List.replicate 16 (0 : Nat)).getD 8 0 : ℚ) / 4) :=
    (C4_decode_fields LGACPacket.init (List.replicate 16 0) (by decide)).2.1
  rw [calc_temp_eq]
  norm_num at h ⊢
  rw [h]
  norm_num

theorem C4_witness :
    (set_packet_data LGACPacket.init (List.replicate 16 0)).2.pipe1_temp
      = 54 - ((List.replicate 16 (0 : Nat)).getD 9 0 : ℚ) / 4 :=
  (C4_decode_fields LGACPacket.init (List.replicate 16 0) (by decide)).2.2.1

/-- C10: set_packet_data is total, succeeds exactly on 16-byte inputs, and a
wrong-length input leaves every field of the packet unchanged. -/
theorem C10_decode_totality (p : LGACPacket) (raw : List Nat) :
    ((set_packet_data p raw).1 = true ↔ raw.length = 16) ∧
    (raw.length ≠ 16 → (set_packet_data p raw).2 = p) := by
  unfold set_packet_data
  by_cases h : raw.length = 16 <;> simp [h]

theorem C10_witness : (set_packet_data LGACPacket.init []).2 = LGACPacket.init :=
  (C10_decode_totality LGACPacket.init []).2 (by decide)

/-! ### Frame-hunting theorems -/

/-- Garbage bytes before the first 0x10 are discarded without affecting the
hunt result. -/
theorem huntPacket_drop_garbage (garbage tl : List Nat) (hg : 16 ∉ garbage) :
    huntPacket (garbage ++ 16 :: tl) = huntPacket (16 :: tl) := by
  have hm : 16 ∈ garbage ++ 16 :: tl := by simp
  have hm2 : 16 ∈ (16 : Nat) :: tl := List.mem_cons_self 16 tl
  rw [huntPacket, dif_pos hm]
  conv_rhs => rw [huntPacket, dif_pos hm2]
  have hidx : (garbage ++ 16 :: tl).indexOf 16 = garbage.length := by
    rw [List.indexOf_append_of_not_mem hg, List.indexOf_cons_self]
    omega
  simp only [hidx, List.drop_left, List.indexOf_cons_self, List.drop_zero]

/-- A checksum-valid 16-byte frame at the head of the buffer is consumed and
returned, leaving the rest of the buffer. -/
theorem huntPacket_found (f1 rest : List Nat) (hlen : f1.length = 15)
    (hck : is_checksum_ok (16 :: f1) = true) :
    huntPacket ((16 :: f1) ++ rest) = (some (16 :: f1), rest) := by
  have hm : 16 ∈ (16 :: f1) ++ rest := by simp
  rw [huntPacket, dif_pos hm]
  have htake : ((16 :: f1) ++ rest).take 16 = 16 :: f1 := by
    simp only [List.cons_append, List.take_succ_cons]
    rw [List.take_left' hlen]
  have hdrop : ((16 :: f1) ++ rest).drop 16 = rest := by
    simp only [List.cons_append, List.drop_succ_cons]
    rw [List.drop_left' hlen]
  simp only [List.cons_append, List.indexOf_cons_self, List.drop_zero] at htake hdrop ⊢
  have hlong : ¬ ((16 : Nat) :: (f1 ++ rest)).length < 16 := by
    simp [List.length_append, hlen]
  rw [if_neg hlong, htake, hdrop, if_pos hck]

/-- C1: the hunting read of async_read_packet discards exactly the garbage
bytes before a checksum-valid 16-byte frame headed by 0x10 and returns that
frame; and when a false 0x10 heads a checksum-invalid window immediately
followed by a true valid frame one byte later, it discards exactly that one
byte and still returns the valid frame. -/
theorem C1_frame_hunting (garbage f1 f2 rest1 rest2 : List Nat)
    (hg : 16 ∉ garbage)
    (hl1 : f1.length = 15) (hck1 : is_checksum_ok (16 :: f1) = true)
    (hl2 : f2.length = 15) (hck2 : is_checksum_ok (16 :: f2) = true)
    (hbad : is_checksum_ok (16 :: 16 :: f2.take 14) = false) :
    huntPacket (garbage ++ (16 :: f1) ++ rest1) = (some (16 :: f1), rest1) ∧
    huntPacket ((16 : Nat) :: (16 :: f2) ++ rest2) = (some (16 :: f2), rest2) := by
  constructor
  · rw [List.append_assoc, show (16 :: f1) ++ rest1 = 16 :: (f1 ++ rest1) from rfl,
      huntPacket_drop_garbage garbage (f1 ++ rest1) hg]
    rw [show (16 : Nat) :: (f1 ++ rest1) = (16 :: f1) ++ rest1 from rfl]
    exact huntPacket_found f1 rest1 hl1 hck1
  · have hm : 16 ∈ (16 : Nat) :: (16 :: f2) ++ rest2 := by simp
    rw [huntPacket, dif_pos hm]
    have htake : ((16 : Nat) :: (16 :: f2) ++ rest2).take 16 = 16 :: 16 :: f2.take 14 := by
      simp only [List.cons_append, List.take_succ_cons]
      rw [List.take_append_eq_append_take]
      simp [hl2]
    have hlong : ¬ ((16 : Nat) :: (16 :: f2) ++ rest2).length < 16 := by
      simp only [List.cons_append, List.length_cons, List.length_append, hl2]
      omega
    simp only [List.cons_append] at htake hlong ⊢
    rw [List.indexOf_cons_self, List.drop_zero, if_neg hlong, htake, hbad]
    simp only [Bool.false_eq_true, if_false, List.drop_succ_cons, List.drop_zero]
    rw [show (16 : Nat) :: (f2 ++ rest2) = (16 :: f2) ++ rest2 from rfl]
    exact huntPacket_found f2 rest2 hl2 hck2

theorem C1_witness :
    huntPacket ([171] ++ (16 :: (List.replicate 14 0 ++ [69])) ++ [7, 8])
      = (some (16 :: (List.replicate 14 0 ++ [69])), [7, 8]) :=
  (C1_frame_hunting [171] (List.replicate 14 0 ++ [69]) (List.replicate 14 0 ++ [69])
    [7, 8] [9] (by decide) (by decide) (by decide) (by decide) (by decide) (by decide)).1

/-! ### Consecutive-error counter theorems -/

/-- C2 as stated is false: a counted write failure does not increment the
counter (it stays 0 instead of becoming 1); the transport is force-closed
at once instead. -/
theorem C2_counterexample :
    (async_send_and_get_result_errors true TxOutcome.writeFail 0).read_error_count ≠ 0 + 1 ∧
    (async_send_and_get_result_errors true TxOutcome.writeFail 0).transport_closed = true := by
  decide

/-- C2 (amended): a counted read timeout increments the counter by one; once
it exceeds 3 (on the 4th consecutive counted timeout) the counter resets to 0
and the transport is force-closed; a counted write failure force-closes at
once without touching the counter; success resets the counter to 0; failed
non-counted probes change nothing. -/
theorem C2_error_counter (n : Nat) (c : Bool) :
    (async_send_and_get_result_errors c TxOutcome.success n
        = { read_error_count := 0, transport_closed := false }) ∧
    (c = true → n < MAX_READ_ERROR_RETRY →
      async_send_and_get_result_errors c TxOutcome.noFrame n
        = { read_error_count := n + 1, transport_closed := false }) ∧
    (c = true → MAX_READ_ERROR_RETRY ≤ n →
      async_send_and_get_result_errors c TxOutcome.noFrame n
        = { read_error_count := 0, transport_closed := true }) ∧
    (c = true →
      async_send_and_get_result_errors c TxOutcome.writeFail n
        = { read_error_count := n, transport_closed := true }) ∧
    (c = false → ∀ o, o ≠ TxOutcome.success →
      async_send_and_get_result_errors c o n
        = { read_error_count := n, transport_closed := false }) ∧
    ((async_send_and_get_result_errors true TxOutcome.noFrame 0).read_error_count = 1 ∧
     (async_send_and_get_result_errors true TxOutcome.noFrame 1).read_error_count = 2 ∧
     (async_send_and_get_result_errors true TxOutcome.noFrame 2).read_error_count = 3 ∧
     (async_send_and_get_result_errors true TxOutcome.noFrame 2).transport_closed = false ∧
     async_send_and_get_result_errors true TxOutcome.noFrame 3
        = { read_error_count := 0, transport_closed := true }) := by
  refine ⟨rfl, ?_, ?_, ?_, ?_, by decide⟩
  · intro hc h
    subst hc
    simp only [MAX_READ_ERROR_RETRY] at h
    simp only [async_send_and_get_result_errors, if_true, MAX_READ_ERROR_RETRY]
    rw [if_neg (by omega)]
  · intro hc h
    subst hc
    simp only [MAX_READ_ERROR_RETRY] at h
    simp only [async_send_and_get_result_errors, if_true, MAX_READ_ERROR_RETRY]
    rw [if_pos (by omega)]
  · intro hc
    subst hc
    simp [async_send_and_get_result_errors]
  · intro hc o ho
    subst hc
    cases o
    · exact absurd rfl ho
    · simp [async_send_and_get_result_errors]
    · simp [async_send_and_get_result_errors]

theorem C2_witness :
    async_send_and_get_result_errors true TxOutcome.noFrame 1
      = { read_error_count := 2, transport_closed := false } :=
  (C2_error_counter 1 true).2.1 rfl (by decide)

/-! ### Buffered exact-length read theorems -/

/-- C7 as stated is false at this input: with 3 bytes buffered when the peer
closes, async_get_data returns empty bytes, not the short data, and does not
trigger a reconnect. -/
theorem C7_counterexample :
    async_get_data 16 [ReadEvent.chunk [1, 2, 3], ReadEvent.chunk []]
        { read_buffer := [], connection_reset := false, closing := false, reconnected := false }
      = ([], { read_buffer := [1, 2, 3], connection_reset := true,
               closing := false, reconnected := false }) ∧
    ([] : List Nat) ≠ [1, 2, 3] := by
  refine ⟨by decide, by decide⟩

/-- The accumulation loop of async_get_data up to a peer close: every
nonempty chunk is appended to the buffer; the empty chunk sets
connection_reset, and the short buffer makes the function return empty
bytes with the partial data still buffered and no reconnect. -/
theorem async_get_data_eof (len : Nat) (buf0 : List Nat)
    (chunks : List (List Nat)) (rest : List ReadEvent)
    (hne : ∀ c ∈ chunks, c ≠ [])
    (hshort : buf0.length + (chunks.map List.length).sum < len) :
    async_get_data len (chunks.map ReadEvent.chunk ++ ReadEvent.chunk [] :: rest)
        { read_buffer := buf0, connection_reset := false, closing := false, reconnected := false }
      = ([], { read_buffer := buf0 ++ chunks.flatten, connection_reset := true,
               closing := false, reconnected := false }) := by
  induction chunks generalizing buf0 with
  | nil =>
      simp only [List.map_nil, List.sum_nil, Nat.add_zero] at hshort
      simp only [List.map_nil, List.nil_append, List.flatten_nil, List.append_nil]
      rw [async_get_data.eq_def]
      dsimp only
      rw [if_neg (by omega), if_pos rfl]
      rw [async_get_data_post]
      dsimp only
      rw [if_pos (by omega)]
  | cons c cs ih =>
      simp only [List.map_cons, List.sum_cons] at hshort
      have hc : c ≠ [] := hne c (List.mem_cons_self c cs)
      simp only [List.map_cons, List.cons_append]
      rw [async_get_data.eq_def]
      dsimp only
      rw [if_neg (by omega), if_neg hc]
      have hne2 : ∀ x ∈ cs, x ≠ [] := fun x hx => hne x (List.mem_cons_of_mem c hx)
      have hshort2 : (buf0 ++ c).length + (cs.map List.length).sum < len := by
        simp only [List.length_append]
        omega
      rw [ih (buf0 ++ c) hne2 hshort2]
      simp [List.append_assoc]

/-- C7 (amended): async_get_data accumulates socket chunks into the internal
buffer; on peer close before enough bytes it marks connection-reset, keeps
the short data buffered and returns empty bytes; it returns empty bytes on
timeout; when enough bytes are buffered it returns exactly the requested
count; and for a positive requested length the reconnect branch never runs. -/
theorem C7_read_exact (len : Nat) (hpos : 0 < len) (buf0 : List Nat)
    (chunks : List (List Nat)) (rest : List ReadEvent)
    (hne : ∀ c ∈ chunks, c ≠ [])
    (hshort : buf0.length + (chunks.map List.length).sum < len) :
    (async_get_data len (chunks.map ReadEvent.chunk ++ ReadEvent.chunk [] :: rest)
        { read_buffer := buf0, connection_reset := false, closing := false, reconnected := false }
      = ([], { read_buffer := buf0 ++ chunks.flatten, connection_reset := true,
               closing := false, reconnected := false })) ∧
    (buf0.length < len →
      async_get_data len []
          { read_buffer := buf0, connection_reset := false, closing := false, reconnected := false }
        = ([], { read_buffer := buf0, connection_reset := false,
                 closing := false, reconnected := false })) ∧
    (buf0.length < len →
      async_get_data len (ReadEvent.timedOut :: rest)
          { read_buffer := buf0, connection_reset := false, closing := false, reconnected := false }
        = ([], { read_buffer := buf0, connection_reset := false,
                 closing := false, reconnected := false })) ∧
    (len ≤ buf0.length →
      async_get_data len rest
          { read_buffer := buf0, connection_reset := false, closing := false, reconnected := false }
        = (buf0.take len, { read_buffer := buf0.drop len, connection_reset := false,
                            closing := false, reconnected := false })) := by
  refine ⟨async_get_data_eof len buf0 chunks rest hne hshort, ?_, ?_, ?_⟩
  · intro h
    rw [async_get_data.eq_def]
    dsimp only
    rw [if_neg (by omega)]
  · intro h
    rw [async_get_data.eq_def]
    dsimp only
    rw [if_neg (by omega)]
  · intro h
    rw [async_get_data.eq_def]
    dsimp only
    rw [if_pos h, async_get_data_post]
    dsimp only
    rw [if_neg (by omega)]
    have hret : buf0.take len ≠ [] := by
      intro hcon
      have hct := congrArg List.length hcon
      simp only [List.length_take, List.length_nil] at hct
      omega
    rw [if_neg (by simp [hret])]

theorem C7_witness :
    async_get_data 16 [ReadEvent.chunk [1], ReadEvent.chunk []]
        { read_buffer := [], connection_reset := false, closing := false, reconnected := false }
      = ([], { read_buffer := [1], connection_reset := true,
               closing := false, reconnected := false }) :=
  (C7_read_exact 16 (by decide) [] [[1]] [] (by decide) (by decide)).1

/-! ### Registry theorems -/

/-- C8: the valid key parses in base 16 and every last-scan tick starts at 0,
but the invalid key "zz" leaves the id attribute unassigned (modelled none)
instead of the 0 announced by the log message in prepare_enabled. -/
theorem C8_registry_bug :
    (prepare_enabled [("00", "livingroom"), ("zz", "badroom")]).map Aircon.id
        = [some 0, none] ∧
    (prepare_enabled [("00", "livingroom"), ("zz", "badroom")]).map Aircon.scan_tick
        = [0, 0] ∧
    (prepare_enabled [("00", "livingroom"), ("zz", "badroom")]).map Aircon.id
        ≠ [some 0, some 0] := by
  refine ⟨by decide, by decide, by decide⟩

/-- C9: get_aircon returns a registered device matching the queried room name
exactly or after underscore sanitization of its stored room name, and it
raises (modelled none) exactly when no registered device matches. -/
theorem C9_room_lookup (aircons : List Aircon) (room_name : String) :
    (get_aircon aircons room_name = none ↔
      ∀ a ∈ aircons,
        ¬ (a.room_name = room_name ∨ a.room_name.replace " " "_" = room_name)) ∧
    (∀ a, get_aircon aircons room_name = some a →
      a ∈ aircons ∧ (a.room_name = room_name ∨ a.room_name.replace " " "_" = room_name)) := by
  constructor
  · rw [get_aircon, List.find?_eq_none]
    simp
  · intro a h
    rw [get_aircon] at h
    have h1 := List.find?_some h
    have h2 := List.mem_of_find?_eq_some h
    refine ⟨h2, ?_⟩
    simpa using h1

def sampleAircon : Aircon := { room_name := "livingroom", id := some 0, scan_tick := 0 }

theorem C9_witness :
    sampleAircon ∈ [sampleAircon] ∧
    (sampleAircon.room_name = "livingroom" ∨
      sampleAircon.room_name.replace " " "_" = "livingroom") :=
  (C9_room_lookup [sampleAircon] "livingroom").2 sampleAircon rfl

/-! ### Encode postcondition theorems -/

theorem get_lgac_mode_data_le (s : String) : get_lgac_mode_data s ≤ 4 := by
  unfold get_lgac_mode_data LGAC_MODE_REV
  split_ifs <;> decide

theorem get_lgac_fanspeed_data_le (s : String) : get_lgac_fanspeed_data s ≤ 6 := by
  unfold get_lgac_fanspeed_data LGAC_FAN_SPEED_REV
  split_ifs <;> decide

theorem shiftLeft_add_eq_or (g i : Nat) (hg : g < 16) (hi : i < 16) :
    (g <<< 4) + i = (g <<< 4) ||| i := by
  have h : ∀ a < 16, ∀ b < 16, (a <<< 4) + b = (a <<< 4) ||| b := by decide
  exact h g hg i hi

theorem mode_byte_swing_bit (om fs : Nat) (h1 : om ≤ 4) (h2 : fs ≤ 6) :
    ((om ||| 8) ||| ((fs <<< 4) &&& 0xf0)) &&& 8 = 8 := by
  have h : ∀ a < 5, ∀ b < 7, ((a ||| 8) ||| ((b <<< 4) &&& 0xf0)) &&& 8 = 8 := by decide
  exact h om (by omega) fs (by omega)

theorem mode_byte_low_nibble (fs : Nat) (h2 : fs ≤ 6) :
    (0 ||| ((fs <<< 4) &&& 0xf0)) &&& 0x0f = 0 := by
  have h : ∀ b < 7, (0 ||| ((b <<< 4) &&& 0xf0)) &&& 0x0f = 0 := by decide
  exact h fs (by omega)

theorem mode_byte_high_nibble (m : Nat) (hm : m < 14) :
    (m ||| ((0 <<< 4) &&& 0xf0)) >>> 4 = 0 := by
  have h : ∀ a < 14, (a ||| ((0 <<< 4) &&& 0xf0)) >>> 4 = 0 := by decide
  exact h m hm

/-- C5: make_new_packet packs group and id into one byte as a bitwise or,
encodes the target temperature with the sentinel 10 outside (18, 30],
maps unmapped action, mode and fan-speed symbols to 0, and sweep "swing"
sets bit 0x08 of the mode byte. -/
theorem C5_encode (p : LGACPacket) (group id : Nat)
    (action operation fanmove fanspeed : String) (temp : Int)
    (hg : group < 16) (hid : id < 16) :
    (make_new_packet p group id action operation fanmove fanspeed temp).groupandid
        = (group <<< 4) ||| id ∧
    (make_new_packet p group id action operation fanmove fanspeed temp).set_temp
        = (if 18 < temp ∧ temp ≤ 30 then (temp - 0x0f).toNat else 10) ∧
    (LGAC_ACTION_REV action = none →
      (make_new_packet p group id action operation fanmove fanspeed temp).action = 0) ∧
    (LGAC_MODE_REV operation = none → fanmove ≠ PAYLOAD_SWING →
      (make_new_packet p group id action operation fanmove fanspeed temp).current_mode
          &&& 0x0f = 0) ∧
    (LGAC_FAN_SPEED_REV fanspeed = none →
      (make_new_packet p group id action operation fanmove fanspeed temp).current_mode
          >>> 4 = 0) ∧
    (fanmove = PAYLOAD_SWING →
      (make_new_packet p group id action operation fanmove fanspeed temp).current_mode
          &&& 0x08 = 0x08) := by
  have e1 : (make_new_packet p group id action operation fanmove fanspeed temp).groupandid
      = (group <<< 4) + id := by
    simp [make_new_packet, set_detail_mode]
  have e2 : (make_new_packet p group id action operation fanmove fanspeed temp).set_temp
      = (if 18 < temp ∧ temp ≤ 30 then (temp - 0x0f).toNat else 10) := by
    simp [make_new_packet, set_detail_mode]
  have e3 : (make_new_packet p group id action operation fanmove fanspeed temp).action
      = get_lgac_action_data action := by
    simp [make_new_packet, set_detail_mode]
  have e4 : (make_new_packet p group id action operation fanmove fanspeed temp).current_mode
      = (if fanmove = PAYLOAD_SWING then get_lgac_mode_data operation ||| 8
         else get_lgac_mode_data operation)
        ||| ((get_lgac_fanspeed_data fanspeed <<< 4) &&& 0xf0) := by
    simp [make_new_packet, set_detail_mode]
  refine ⟨?_, e2, ?_, ?_, ?_, ?_⟩
  · rw [e1]
    exact shiftLeft_add_eq_or group id hg hid
  · intro h
    rw [e3]
    simp [get_lgac_action_data, h]
  · intro h hsw
    rw [e4, if_neg hsw]
    have hop : get_lgac_mode_data operation = 0 := by simp [get_lgac_mode_data, h]
    rw [hop]
    exact mode_byte_low_nibble _ (get_lgac_fanspeed_data_le fanspeed)
  · intro h
    rw [e4]
    have hfs : get_lgac_fanspeed_data fanspeed = 0 := by simp [get_lgac_fanspeed_data, h]
    rw [hfs]
    apply mode_byte_high_nibble
    have hop := get_lgac_mode_data_le operation
    split_ifs with hsw
    · have hb : ∀ a < 5, a ||| 8 < 14 := by decide
      exact hb _ (by omega)
    · omega
  · intro hsw
    rw [e4, if_pos hsw]
    exact mode_byte_swing_bit _ _ (get_lgac_mode_data_le operation)
      (get_lgac_fanspeed_data_le fanspeed)

theorem C5_witness :
    (make_new_packet LGACPacket.init 1 2 "zz" "cool" "swing" "low" 25).action = 0 ∧
    (make_new_packet LGACPacket.init 1 2 "zz" "cool" "swing" "low" 25).current_mode
        &&& 0x08 = 0x08 :=
  ⟨(C5_encode LGACPacket.init 1 2 "zz" "cool" "swing" "low" 25
      (by decide) (by decide)).2.2.1 (by decide),
   (C5_encode LGACPacket.init 1 2 "zz" "cool" "swing" "low" 25
      (by decide) (by decide)).2.2.2.2.2 rfl⟩

/-! ### Symbol-table theorems -/

/-- C6: every action code in {0,1,2,3,6,7} round-trips through decode and
re-encode unchanged; an action code outside the table decodes to "status";
a fan-speed field outside the table decodes to "low". -/
theorem C6_symbol_tables (p q r : LGACPacket)
    (h1 : p.action ∈ [0, 1, 2, 3, 6, 7])
    (h2 : LGAC_ACTION q.action = none)
    (h3 : LGAC_FAN_SPEED ((r.current_mode >>> 4) &&& 0x07) = none) :
    (set_detail_mode (get_detail_mode p)).action = p.action ∧
    (get_detail_mode q).str_action = PAYLOAD_STATUS ∧
    (get_detail_mode r).str_fanmode = PAYLOAD_LOW := by
  refine ⟨?_, ?_, ?_⟩
  · have ea : (set_detail_mode (get_detail_mode p)).action
        = get_lgac_action_data (get_detail_mode p).str_action := by
      simp [set_detail_mode]
    have es : (get_detail_mode p).str_action
        = (if parse_lgac_action p.action = "" then PAYLOAD_STATUS
           else parse_lgac_action p.action) := by
      simp [get_detail_mode]
    rw [ea, es]
    simp only [List.mem_cons, List.not_mem_nil, or_false] at h1
    rcases h1 with h | h | h | h | h | h <;> rw [h] <;> decide
  · simp [get_detail_mode, parse_lgac_action, h2]
  · simp [get_detail_mode, parse_lgac_fanspeed, h3]

theorem C6_witness :
    (set_detail_mode (get_detail_mode { LGACPacket.init with action := 3 })).action
        = ({ LGACPacket.init with action := 3 } : LGACPacket).action ∧
    (get_detail_mode { LGACPacket.init with action := 5 }).str_action = PAYLOAD_STATUS ∧
    (get_detail_mode LGACPacket.init).str_fanmode = PAYLOAD_LOW :=
  C6_symbol_tables { LGACPacket.init with action := 3 } { LGACPacket.init with action := 5 }
    LGACPacket.init (by decide) (by decide) (by decide)
